import Mathlib

/-!
Shallow embedding of the AkasaAir KPI analysis repository.

The repository has two execution paths over the same data:
* `analyze_data.py` — persists customers/orders into MySQL tables and computes
  the four KPIs as SQL queries (`calculate_kpis`, `load_data_to_db`);
* `analyze_data_inmemory.py` — keeps pandas DataFrames in memory and computes
  the same KPIs with merge/groupby/agg (`DataProcessor`).

Rows are embedded as Lean structures, DataFrames/tables as `List`s, monetary
amounts as exact integers (cents; MySQL `DECIMAL(10,2)` is exact, and the spec
mandates exact decimal arithmetic), timestamps as civil calendar fields with a
derived epoch-second value for instant comparisons.  `pandas.merge`/SQL `JOIN`
become an explicit product-filter join, `groupby`/`GROUP BY` become
dedup-of-keys plus filter, `nunique`/`COUNT(DISTINCT …)` become
length-of-dedup, sorting becomes `List.insertionSort` (both sources sort with
an unspecified, unstable tie order; any comparison sort is a faithful model).
-/

namespace AkasaAir

/-- A row of the customers CSV / `customers` table
(`customer_id, customer_name, mobile_number, region`). -/
structure Customer where
  customer_id : String
  customer_name : String
  mobile_number : String
  region : String
deriving DecidableEq, Repr

/-- A civil timestamp as parsed by `pd.to_datetime` / stored in a MySQL
`DATETIME` (both paths work in the single fixed zone `Asia/Kolkata`, a
constant-offset zone, so civil fields determine the absolute instant). -/
structure Timestamp where
  year : Nat
  month : Nat
  day : Nat
  hour : Nat
  minute : Nat
  second : Nat
deriving DecidableEq, Repr

/-- Days from 1970-01-01 of a civil date (standard civil-calendar formula,
truncating integer division; exact for the proleptic Gregorian calendar). -/
def daysFromCivil (y : Int) (m d : Int) : Int :=
  let y' : Int := if m ≤ 2 then y - 1 else y
  let era : Int := (if 0 ≤ y' then y' else y' - 399) / 400
  let yoe : Int := y' - era * 400
  let doy : Int := (153 * (m + (if 2 < m then -3 else 9)) + 2) / 5 + d - 1
  let doe : Int := yoe * 365 + yoe / 4 - yoe / 100 + doy
  era * 146097 + doe - 719468

/-- Seconds from the epoch: the absolute instant a timestamp denotes
(what datetime64 comparison in pandas / `DATETIME` comparison in MySQL
compare by, the offset being fixed). -/
def Timestamp.toSec (t : Timestamp) : Int :=
  daysFromCivil t.year t.month t.day * 86400
    + t.hour * 3600 + t.minute * 60 + t.second

/-- A row of the orders XML / `orders` table.  `total_amount` is in cents. -/
structure Order where
  order_id : String
  mobile_number : String
  order_date_time : Timestamp
  sku_id : String
  sku_count : Nat
  total_amount : Int
deriving DecidableEq, Repr

/-- Zero-pad to two digits (as `strftime`/`DATE_FORMAT` `%m` does). -/
def pad2 (n : Nat) : String :=
  if n < 10 then "0" ++ toString n else toString n

/-- Zero-pad to four digits (as `strftime`/`DATE_FORMAT` `%Y` does). -/
def pad4 (n : Nat) : String :=
  if n < 10 then "000" ++ toString n
  else if n < 100 then "00" ++ toString n
  else if n < 1000 then "0" ++ toString n
  else toString n

/-- The `'%Y-%m'` month key used by both paths
(`dt.strftime('%Y-%m')` and `DATE_FORMAT(order_date_time, '%Y-%m')`). -/
def monthKey (t : Timestamp) : String :=
  pad4 t.year ++ "-" ++ pad2 t.month

/-- The distinct values of `key` over `l`, i.e. the group keys produced by
`groupby` / `GROUP BY`. -/
def groupKeys {α κ : Type} [DecidableEq κ] (key : α → κ) (l : List α) : List κ :=
  (l.map key).dedup

/-- The rows of `l` belonging to group `k`. -/
def groupRows {α κ : Type} [DecidableEq κ] (key : α → κ) (l : List α) (k : κ) : List α :=
  l.filter (fun x => key x = k)

/-- `nunique` / `COUNT(DISTINCT f)` over a row list. -/
def nuniq {α β : Type} [DecidableEq β] (f : α → β) (l : List α) : Nat :=
  ((l.map f).dedup).length

/-- `sum` / `SUM(f)` over a row list. -/
def sumBy {α : Type} (f : α → Int) (l : List α) : Int :=
  (l.map f).sum

/-- The inner equi-join of orders to customers on `mobile_number`:
`pd.merge(orders_df, customers_df, on='mobile_number')` in the in-memory path,
`customers c JOIN orders o ON c.mobile_number = o.mobile_number` in the SQL
path (same bag of matched pairs). -/
def joinOrders (orders : List Order) (customers : List Customer) :
    List (Order × Customer) :=
  orders.flatMap (fun o =>
    (customers.filter (fun c => c.mobile_number = o.mobile_number)).map
      (fun c => (o, c)))

/-! ## In-memory path: `DataProcessor` (`analyze_data_inmemory.py`) -/

/-- A row of `DataProcessor.get_repeat_customers`'s result
(`customer_id`, `customer_name`, `order_count`). -/
structure RepeatRow where
  customer_id : String
  customer_name : String
  order_count : Nat
deriving DecidableEq, Repr

/-- The grouped rows of `get_repeat_customers` before filtering/sorting:
`merged_df.groupby(['customer_id','customer_name'])['order_id'].nunique()`. -/
def mem_repeat_rows (customers : List Customer) (orders : List Order) :
    List RepeatRow :=
  let merged := joinOrders orders customers
  let key : Order × Customer → String × String :=
    fun r => (r.2.customer_id, r.2.customer_name)
  (groupKeys key merged).map (fun k =>
    { customer_id := k.1, customer_name := k.2,
      order_count := nuniq (fun r => r.1.order_id) (groupRows key merged k) })

/-- `DataProcessor.get_repeat_customers`: keep groups with
`order_count > 1`, sort by `order_count` descending. -/
def get_repeat_customers (customers : List Customer) (orders : List Order) :
    List RepeatRow :=
  ((mem_repeat_rows customers orders).filter (fun r => 1 < r.order_count)).insertionSort
    (fun a b => b.order_count ≤ a.order_count)

/-- A row of `DataProcessor.get_monthly_order_trends`'s result. -/
structure MonthlyRow where
  month : String
  total_orders : Nat
  total_revenue : Int
  unique_customers : Nat
deriving DecidableEq, Repr

/-- The grouped rows of `get_monthly_order_trends` before sorting:
`orders_df.groupby(orders_df['order_date_time'].dt.strftime('%Y-%m')).agg(...)`
over the full (un-joined) order set. -/
def mem_monthly_rows (orders : List Order) : List MonthlyRow :=
  let key : Order → String := fun o => monthKey o.order_date_time
  (groupKeys key orders).map (fun m =>
    { month := m,
      total_orders := nuniq Order.order_id (groupRows key orders m),
      total_revenue := sumBy Order.total_amount (groupRows key orders m),
      unique_customers := nuniq Order.mobile_number (groupRows key orders m) })

/-- `DataProcessor.get_monthly_order_trends`: sort by `month` ascending. -/
def get_monthly_order_trends (orders : List Order) : List MonthlyRow :=
  (mem_monthly_rows orders).insertionSort (fun a b => a.month ≤ b.month)

/-- A row of `DataProcessor.get_regional_revenue`'s result. -/
structure RegionalRow where
  region : String
  total_orders : Nat
  total_revenue : Int
  unique_customers : Nat
  avg_order_value : Rat
deriving DecidableEq, Repr

/-- The grouped rows of `get_regional_revenue` before sorting:
`merged_df.groupby('region').agg(...)` plus the derived
`avg_order_value = total_revenue / total_orders` (float division in the
source, embedded as exact rational division). -/
def mem_regional_rows (customers : List Customer) (orders : List Order) :
    List RegionalRow :=
  let merged := joinOrders orders customers
  let key : Order × Customer → String := fun r => r.2.region
  (groupKeys key merged).map (fun reg =>
    let g := groupRows key merged reg
    { region := reg,
      total_orders := nuniq (fun r => r.1.order_id) g,
      total_revenue := sumBy (fun r => r.1.total_amount) g,
      unique_customers := nuniq (fun r => r.2.customer_id) g,
      avg_order_value :=
        (sumBy (fun r => r.1.total_amount) g : Rat)
          / (nuniq (fun r => r.1.order_id) g : Rat) })

/-- `DataProcessor.get_regional_revenue`: sort by `total_revenue` descending. -/
def get_regional_revenue (customers : List Customer) (orders : List Order) :
    List RegionalRow :=
  (mem_regional_rows customers orders).insertionSort
    (fun a b => b.total_revenue ≤ a.total_revenue)

/-- The trailing 30-day filter shared by both paths: the in-memory path's
`orders_df[orders_df['order_date_time'] >= current_date - timedelta(days=30)]`
and the SQL path's `WHERE o.order_date_time >= DATE_SUB(NOW(), INTERVAL 30
DAY)`.  `now` is the single reference instant (epoch seconds) captured once
for the analysis run (`self.current_date` resp. the statement's `NOW()`);
`timedelta(days=30)` and `INTERVAL 30 DAY` are both exactly `30 * 86400`
seconds in the fixed-offset zone used. -/
def recentOrders (orders : List Order) (now : Int) : List Order :=
  orders.filter (fun o => now - 30 * 86400 ≤ o.order_date_time.toSec)

/-- A row of `DataProcessor.get_top_customers_last_30_days`'s result. -/
structure TopCustomerRow where
  customer_id : String
  customer_name : String
  region : String
  order_count : Nat
  total_spend : Int
deriving DecidableEq, Repr

/-- The grouped rows of `get_top_customers_last_30_days` before
ranking/truncation: join the filtered orders to customers, group by
`(customer_id, customer_name, region)`, aggregate `order_id` nunique and
`total_amount` sum. -/
def mem_top_rows (customers : List Customer) (orders : List Order) (now : Int) :
    List TopCustomerRow :=
  let merged := joinOrders (recentOrders orders now) customers
  let key : Order × Customer → String × String × String :=
    fun r => (r.2.customer_id, r.2.customer_name, r.2.region)
  (groupKeys key merged).map (fun k =>
    { customer_id := k.1, customer_name := k.2.1, region := k.2.2,
      order_count := nuniq (fun r => r.1.order_id) (groupRows key merged k),
      total_spend := sumBy (fun r => r.1.total_amount) (groupRows key merged k) })

/-- `DataProcessor.get_top_customers_last_30_days`: sort by `total_spend`
descending and keep the first 10 (`.head(10)`). -/
def get_top_customers_last_30_days (customers : List Customer)
    (orders : List Order) (now : Int) : List TopCustomerRow :=
  ((mem_top_rows customers orders now).insertionSort
    (fun a b => b.total_spend ≤ a.total_spend)).take 10

/-! ## SQL path: `calculate_kpis` (`analyze_data.py`)

Each query is embedded as relational algebra over the persisted tables
(the lists loaded by `load_data_to_db`).  `GROUP BY` enumerates groups in
some arbitrary order (modelled, like pandas, as first-occurrence order of
the key) and `ORDER BY` then sorts. -/

/-- SQL KPI 1 before `ORDER BY`/`SELECT`: `GROUP BY c.customer_id,
c.customer_name` with `COUNT(DISTINCT o.order_id)`, `HAVING order_count > 1`. -/
def sql_repeat_groups (customers : List Customer) (orders : List Order) :
    List ((String × String) × Nat) :=
  let merged := joinOrders orders customers
  let key : Order × Customer → String × String :=
    fun r => (r.2.customer_id, r.2.customer_name)
  ((groupKeys key merged).map (fun k =>
    (k, nuniq (fun r => r.1.order_id) (groupRows key merged k)))).filter
    (fun p => 1 < p.2)

/-- SQL KPI 1: `SELECT c.customer_name, COUNT(DISTINCT o.order_id) …
ORDER BY order_count DESC` — result rows are (customer_name, order_count). -/
def sql_repeat_customers (customers : List Customer) (orders : List Order) :
    List (String × Nat) :=
  ((sql_repeat_groups customers orders).insertionSort
    (fun a b => b.2 ≤ a.2)).map (fun p => (p.1.2, p.2))

/-- SQL KPI 2: `SELECT DATE_FORMAT(order_date_time,'%Y-%m'),
COUNT(DISTINCT order_id), SUM(total_amount) FROM orders GROUP BY … ORDER BY
month` — note: only two aggregates, no distinct-mobile count. -/
def sql_monthly_order_trends (orders : List Order) :
    List (String × Nat × Int) :=
  let key : Order → String := fun o => monthKey o.order_date_time
  ((groupKeys key orders).map (fun m =>
    (m, nuniq Order.order_id (groupRows key orders m),
     sumBy Order.total_amount (groupRows key orders m)))).insertionSort
    (fun a b => a.1 ≤ b.1)

/-- SQL KPI 3: `SELECT c.region, SUM(o.total_amount) … GROUP BY c.region
ORDER BY total_revenue DESC` — only the region and the revenue sum. -/
def sql_regional_revenue (customers : List Customer) (orders : List Order) :
    List (String × Int) :=
  let merged := joinOrders orders customers
  let key : Order × Customer → String := fun r => r.2.region
  ((groupKeys key merged).map (fun reg =>
    (reg, sumBy (fun r => r.1.total_amount) (groupRows key merged reg)))).insertionSort
    (fun a b => b.2 ≤ a.2)

/-- SQL KPI 4 before `ORDER BY`/`LIMIT`/`SELECT`: filter to the trailing 30-day
window, join, `GROUP BY c.customer_id, c.customer_name` with
`SUM(o.total_amount)`. -/
def sql_top_groups (customers : List Customer) (orders : List Order) (now : Int) :
    List ((String × String) × Int) :=
  let merged := joinOrders (recentOrders orders now) customers
  let key : Order × Customer → String × String :=
    fun r => (r.2.customer_id, r.2.customer_name)
  (groupKeys key merged).map (fun k =>
    (k, sumBy (fun r => r.1.total_amount) (groupRows key merged k)))

/-- SQL KPI 4: `SELECT c.customer_name, SUM(o.total_amount) … ORDER BY
total_spend DESC LIMIT 5` — result rows are (customer_name, total_spend). -/
def sql_top_customers (customers : List Customer) (orders : List Order)
    (now : Int) : List (String × Int) :=
  (((sql_top_groups customers orders now).insertionSort
    (fun a b => b.2 ≤ a.2)).take 5).map (fun p => (p.1.2, p.2))

/-! ## Record normalizer: `DataProcessor.load_customer_data` -/

/-- The required customer columns checked by `load_customer_data`. -/
def requiredCustomerColumns : List String :=
  ["customer_id", "customer_name", "mobile_number", "region"]

/-- A raw customer table as returned by `pd.read_csv`: the header (column
names) plus the decoded rows.  Field values arrive as strings; the
`astype(str)` coercions of the source are identities here and the
`region.str.strip()` cleaning is `String.trim`. -/
structure RawCustomerTable where
  columns : List String
  rows : List Customer
deriving DecidableEq, Repr

/-- The cleaning applied per customer row: `mobile_number`/`customer_id`
`astype(str)` (identity on strings) and `region.str.strip()`. -/
def cleanCustomer (c : Customer) : Customer :=
  { c with region := c.region.trim }

/-- `DataProcessor.load_customer_data`: validate that every required column is
present in the source, else raise (`ValueError("Missing required columns in
customer data")` — the spec's `SchemaError`); on success return the cleaned
collection. -/
def load_customer_data (t : RawCustomerTable) : Except String (List Customer) :=
  if requiredCustomerColumns.all (fun col => t.columns.contains col) then
    Except.ok (t.rows.map cleanCustomer)
  else
    Except.error "Missing required columns in customer data"

/-- An analysis run of the in-memory path: normalize the customer source,
then compute the four KPIs (`main` in `analyze_data_inmemory.py`).  A
normalization failure propagates and aborts the run before any KPI
computation. -/
def run_analysis (t : RawCustomerTable) (orders : List Order) (now : Int) :
    Except String
      (List RepeatRow × List MonthlyRow × List RegionalRow × List TopCustomerRow) :=
  match load_customer_data t with
  | Except.error e => Except.error e
  | Except.ok cs =>
      Except.ok
        (get_repeat_customers cs orders,
         get_monthly_order_trends orders,
         get_regional_revenue cs orders,
         get_top_customers_last_30_days cs orders now)

/-! ## Persistence: `load_data_to_db` (`analyze_data.py`)

`load_data_to_db(customers_df, orders_df)` re-assigns the caller's orders
frame column: `orders_df['order_date_time'] = pd.to_datetime(...)`, replacing
the raw strings with parsed datetimes in place, then upserts both tables.
The mutation is modelled by returning the final values of both DataFrame
arguments alongside the tables written. -/

/-- The value held by the `order_date_time` column cell: the raw decoded
string before `pd.to_datetime`, or a parsed datetime after it. -/
inductive DTCell where
  | raw (s : String)
  | parsed (t : Timestamp)
deriving DecidableEq, Repr

/-- A row of the orders DataFrame handed to `load_data_to_db` (the
`order_date_time` column may still hold raw strings). -/
structure OrderRow where
  order_id : String
  mobile_number : String
  order_date_time : DTCell
  sku_id : String
  sku_count : Nat
  total_amount : Int
deriving DecidableEq, Repr

/-- `pd.to_datetime` on one cell (`parse` is the external datetime parser;
an already-parsed cell is left as is). -/
def parseCell (parse : String → Timestamp) : DTCell → DTCell
  | DTCell.raw s => DTCell.parsed (parse s)
  | DTCell.parsed t => DTCell.parsed t

/-- The column assignment
`orders_df['order_date_time'] = pd.to_datetime(orders_df['order_date_time'])`. -/
def to_datetime_col (parse : String → Timestamp) (orders : List OrderRow) :
    List OrderRow :=
  orders.map (fun o => { o with order_date_time := parseCell parse o.order_date_time })

/-- The database tables written by `load_data_to_db`. -/
structure DbTables where
  customers : List Customer
  orders : List OrderRow
deriving DecidableEq, Repr

/-- `load_data_to_db(customers_df, orders_df)`: upserts the customer rows
unchanged, overwrites the orders frame's `order_date_time` column with parsed
datetimes, then upserts the order rows.  The first component is the final
value of the two DataFrame arguments (observable by the caller after the
call); the second is the store contents. -/
def load_data_to_db (parse : String → Timestamp) (customers_df : List Customer)
    (orders_df : List OrderRow) : (List Customer × List OrderRow) × DbTables :=
  let orders' := to_datetime_col parse orders_df
  ((customers_df, orders'), { customers := customers_df, orders := orders' })

/-! ## Helper lemmas -/

theorem mem_joinOrders {os : List Order} {cs : List Customer} {o : Order}
    {c : Customer} :
    (o, c) ∈ joinOrders os cs ↔
      o ∈ os ∧ c ∈ cs ∧ o.mobile_number = c.mobile_number := by
  simp only [joinOrders, List.mem_flatMap, List.mem_map, List.mem_filter,
    decide_eq_true_eq, Prod.mk.injEq]
  constructor
  · rintro ⟨o', ho', c', ⟨hc', hmob⟩, rfl, rfl⟩
    exact ⟨ho', hc', hmob.symm⟩
  · rintro ⟨ho, hc, hmob⟩
    exact ⟨o, ho, c, ⟨hc, hmob.symm⟩, rfl, rfl⟩

theorem mem_groupKeys {α κ : Type} [DecidableEq κ] {key : α → κ} {l : List α}
    {k : κ} : k ∈ groupKeys key l ↔ ∃ x ∈ l, key x = k := by
  simp [groupKeys, List.mem_dedup, List.mem_map]

theorem mem_groupRows {α κ : Type} [DecidableEq κ] {key : α → κ} {l : List α}
    {k : κ} {x : α} : x ∈ groupRows key l k ↔ x ∈ l ∧ key x = k := by
  simp [groupRows, List.mem_filter]

theorem groupRows_ne_nil {α κ : Type} [DecidableEq κ] {key : α → κ}
    {l : List α} {k : κ} (h : k ∈ groupKeys key l) : groupRows key l k ≠ [] := by
  rcases mem_groupKeys.1 h with ⟨x, hx, hk⟩
  intro hnil
  have : x ∈ groupRows key l k := mem_groupRows.2 ⟨hx, hk⟩
  rw [hnil] at this
  exact absurd this (List.not_mem_nil x)

theorem nuniq_pos {α β : Type} [DecidableEq β] {f : α → β} {l : List α}
    (h : l ≠ []) : 1 ≤ nuniq f l := by
  rw [nuniq, Nat.succ_le, List.length_pos]
  intro hnil
  rw [List.dedup_eq_nil, List.map_eq_nil_iff] at hnil
  exact h hnil

theorem sumBy_filter_not {α : Type} (f : α → Int) (p : α → Bool) (l : List α) :
    sumBy f (l.filter p) + sumBy f (l.filter (fun x => !p x)) = sumBy f l := by
  induction l with
  | nil => simp [sumBy]
  | cons a l ih =>
    cases h : p a <;> simp [sumBy, List.filter_cons, h] at ih ⊢ <;> omega

theorem sumBy_cover {α κ : Type} [DecidableEq κ] (key : α → κ) (f : α → Int) :
    ∀ (ks : List κ) (l : List α), ks.Nodup → (∀ x ∈ l, key x ∈ ks) →
      (ks.map (fun k => sumBy f (groupRows key l k))).sum = sumBy f l := by
  intro ks
  induction ks with
  | nil =>
    intro l _ hcov
    cases l with
    | nil => simp [sumBy]
    | cons a l => exact absurd (hcov a (List.mem_cons_self a l)) (List.not_mem_nil _)
  | cons k ks ih =>
    intro l hnd hcov
    have hk : k ∉ ks := (List.nodup_cons.1 hnd).1
    have hrest : ∀ k' ∈ ks,
        groupRows key l k' = groupRows key (l.filter (fun x => !(decide (key x = k)))) k' := by
      intro k' hk'
      have hne : k' ≠ k := fun h => hk (h ▸ hk')
      rw [groupRows, groupRows, List.filter_filter]
      refine List.filter_congr ?_
      intro x _
      by_cases hx : key x = k'
      · simp [hx, hne]
      · simp [hx]
    rw [List.map_cons, List.sum_cons,
      List.map_congr_left (fun k' hk' => by rw [hrest k' hk']),
      ih (l.filter (fun x => !(decide (key x = k)))) (List.nodup_cons.1 hnd).2
        (fun x hx => by
          rcases List.mem_filter.1 hx with ⟨hxl, hxk⟩
          rcases List.mem_cons.1 (hcov x hxl) with h | h
          · exact absurd hxk (by simp [h])
          · exact h)]
    exact sumBy_filter_not f (fun x => decide (key x = k)) l

theorem sumBy_partition {α κ : Type} [DecidableEq κ] (key : α → κ) (f : α → Int)
    (l : List α) :
    ((groupKeys key l).map (fun k => sumBy f (groupRows key l k))).sum = sumBy f l :=
  sumBy_cover key f (groupKeys key l) l (List.nodup_dedup _)
    (fun x hx => mem_groupKeys.2 ⟨x, hx, rfl⟩)

theorem dedup_map_injOn {α β : Type} [DecidableEq α] [DecidableEq β] {f : α → β} :
    ∀ {l : List α}, (∀ a ∈ l, ∀ b ∈ l, f a = f b → a = b) →
      (l.map f).dedup = l.dedup.map f := by
  intro l
  induction l with
  | nil => intro _; rfl
  | cons a l ih =>
    intro hinj
    have htail : ∀ x ∈ l, ∀ y ∈ l, f x = f y → x = y :=
      fun x hx y hy => hinj x (List.mem_cons_of_mem a hx) y (List.mem_cons_of_mem a hy)
    by_cases ha : a ∈ l
    · rw [List.map_cons, List.dedup_cons_of_mem (List.mem_map_of_mem f ha),
        List.dedup_cons_of_mem ha, ih htail]
    · rw [List.map_cons, List.dedup_cons_of_not_mem, List.dedup_cons_of_not_mem ha,
        List.map_cons, ih htail]
      intro hmem
      rcases List.mem_map.1 hmem with ⟨b, hb, hfb⟩
      exact ha (hinj b (List.mem_cons_of_mem a hb) a (List.mem_cons_self a l) hfb ▸ hb)

theorem snd_mem_cs {os : List Order} {cs : List Customer} {r : Order × Customer}
    (h : r ∈ joinOrders os cs) : r.2 ∈ cs := by
  rcases r with ⟨o, c⟩
  exact (mem_joinOrders.1 h).2.1

/-- The SQL KPI 1 grouped rows are the in-memory KPI 1 grouped rows
(same grouping, same distinct-count, same threshold). -/
theorem sql_repeat_groups_eq (cs : List Customer) (os : List Order) :
    sql_repeat_groups cs os =
      ((mem_repeat_rows cs os).filter (fun r => 1 < r.order_count)).map
        (fun r => ((r.customer_id, r.customer_name), r.order_count)) := by
  simp only [sql_repeat_groups, mem_repeat_rows]
  rw [List.filter_map, List.filter_map, List.map_map]
  rfl

/-- KPI 1 path agreement: the SQL result is the in-memory result projected
to the two columns the SQL query selects. -/
theorem sql_repeat_eq (cs : List Customer) (os : List Order) :
    sql_repeat_customers cs os =
      (get_repeat_customers cs os).map (fun r => (r.customer_name, r.order_count)) := by
  rw [sql_repeat_customers, get_repeat_customers, sql_repeat_groups_eq,
    ← List.map_insertionSort (fun (a b : RepeatRow) => b.order_count ≤ a.order_count)
      (fun a b => b.2 ≤ a.2)
      (fun r => ((r.customer_id, r.customer_name), r.order_count)) _
      (fun a _ b _ => Iff.rfl),
    List.map_map]
  rfl

/-- KPI 2 path agreement: the SQL result is the in-memory result minus the
`unique_customers` aggregate the SQL query does not compute. -/
theorem sql_monthly_eq (os : List Order) :
    sql_monthly_order_trends os =
      (get_monthly_order_trends os).map
        (fun r => (r.month, r.total_orders, r.total_revenue)) := by
  simp only [sql_monthly_order_trends, get_monthly_order_trends, mem_monthly_rows]
  rw [List.map_insertionSort (fun (a b : MonthlyRow) => a.month ≤ b.month)
      (fun (a b : String × Nat × Int) => a.1 ≤ b.1)
      (fun r => (r.month, r.total_orders, r.total_revenue)) _
      (fun a _ b _ => Iff.rfl),
    List.map_map]
  rfl

/-- KPI 3 path agreement: the SQL result is the in-memory result projected
to (region, total_revenue). -/
theorem sql_regional_eq (cs : List Customer) (os : List Order) :
    sql_regional_revenue cs os =
      (get_regional_revenue cs os).map (fun r => (r.region, r.total_revenue)) := by
  simp only [sql_regional_revenue, get_regional_revenue, mem_regional_rows]
  rw [List.map_insertionSort (fun (a b : RegionalRow) => b.total_revenue ≤ a.total_revenue)
      (fun (a b : String × Int) => b.2 ≤ a.2)
      (fun r => (r.region, r.total_revenue)) _
      (fun a _ b _ => Iff.rfl),
    List.map_map]
  rfl

/-- KPI 4 grouped rows: when `customer_id` is unique across the customer set
(a §3 invariant), grouping by (customer_id, customer_name) — the SQL key —
and by (customer_id, customer_name, region) — the in-memory key — produce
the same groups, so the SQL grouped rows are the in-memory grouped rows
projected to the key and total spend. -/
theorem sql_top_groups_eq (cs : List Customer) (os : List Order) (now : Int)
    (hN : (cs.map Customer.customer_id).Nodup) :
    sql_top_groups cs os now =
      (mem_top_rows cs os now).map
        (fun r => ((r.customer_id, r.customer_name), r.total_spend)) := by
  have hdet : ∀ c ∈ cs, ∀ c' ∈ cs, c.customer_id = c'.customer_id → c = c' :=
    fun c hc c' hc' => List.inj_on_of_nodup_map hN hc hc'
  simp only [sql_top_groups, mem_top_rows]
  have hinj : ∀ a ∈ (joinOrders (recentOrders os now) cs).map
        (fun r : Order × Customer => (r.2.customer_id, r.2.customer_name, r.2.region)),
      ∀ b ∈ (joinOrders (recentOrders os now) cs).map
        (fun r : Order × Customer => (r.2.customer_id, r.2.customer_name, r.2.region)),
      (a.1, a.2.1) = (b.1, b.2.1) → a = b := by
    intro a ha b hb hab
    rcases List.mem_map.1 ha with ⟨x, hx, rfl⟩
    rcases List.mem_map.1 hb with ⟨y, hy, rfl⟩
    have hxy : x.2 = y.2 :=
      hdet _ (snd_mem_cs hx) _ (snd_mem_cs hy) (congrArg Prod.fst hab)
    rw [hxy]
  have hkeys : groupKeys
        (fun r : Order × Customer => (r.2.customer_id, r.2.customer_name))
        (joinOrders (recentOrders os now) cs)
      = (groupKeys
          (fun r : Order × Customer => (r.2.customer_id, r.2.customer_name, r.2.region))
          (joinOrders (recentOrders os now) cs)).map (fun k => (k.1, k.2.1)) := by
    rw [groupKeys, groupKeys, ← dedup_map_injOn hinj, List.map_map]
    rfl
  have hrows : ∀ k ∈ groupKeys
        (fun r : Order × Customer => (r.2.customer_id, r.2.customer_name, r.2.region))
        (joinOrders (recentOrders os now) cs),
      groupRows (fun r : Order × Customer => (r.2.customer_id, r.2.customer_name))
        (joinOrders (recentOrders os now) cs) (k.1, k.2.1)
      = groupRows (fun r : Order × Customer => (r.2.customer_id, r.2.customer_name, r.2.region))
        (joinOrders (recentOrders os now) cs) k := by
    intro k hk
    rcases mem_groupKeys.1 hk with ⟨y, hy, hky⟩
    refine List.filter_congr ?_
    intro x hx
    rw [decide_eq_decide]
    constructor
    · intro h1
      have hcid : x.2.customer_id = y.2.customer_id := by
        have := congrArg Prod.fst h1
        simp only at this
        rw [this, ← hky]
      have hxy : x.2 = y.2 := hdet _ (snd_mem_cs hx) _ (snd_mem_cs hy) hcid
      simp only [← hky, hxy]
    · intro h2
      rw [← hky] at h2 ⊢
      have : x.2 = y.2 := by
        have h21 := congrArg (fun p : String × String × String => p.1) h2
        exact hdet _ (snd_mem_cs hx) _ (snd_mem_cs hy) h21
      simp only [this]
  rw [hkeys, List.map_map, List.map_map]
  refine List.map_congr_left ?_
  intro k hk
  simp only [Function.comp]
  rw [hrows k hk]

/-- KPI 4 path agreement up to truncation: under unique `customer_id`s the
SQL output is the first 5 rows of the in-memory output (which kept 10)
projected to (customer_name, total_spend). -/
theorem sql_top_eq (cs : List Customer) (os : List Order) (now : Int)
    (hN : (cs.map Customer.customer_id).Nodup) :
    sql_top_customers cs os now =
      ((get_top_customers_last_30_days cs os now).take 5).map
        (fun r => (r.customer_name, r.total_spend)) := by
  rw [sql_top_customers, get_top_customers_last_30_days, sql_top_groups_eq cs os now hN,
    ← List.map_insertionSort (fun (a b : TopCustomerRow) => b.total_spend ≤ a.total_spend)
      (fun (a b : (String × String) × Int) => b.2 ≤ a.2)
      (fun r => ((r.customer_id, r.customer_name), r.total_spend)) _
      (fun a _ b _ => Iff.rfl)]
  simp only [List.take_take, List.map_take, List.map_map]
  norm_num
  rfl

/-! ## Concrete fixtures (used by witnesses and counterexamples) -/

/-- The customer of the spec §8 concrete scenario. -/
def csX : List Customer := [⟨"C1", "Alice", "555-0001", "West"⟩]

def tA : Timestamp := ⟨2024, 3, 15, 10, 0, 0⟩

def tB : Timestamp := ⟨2024, 3, 16, 10, 0, 0⟩

/-- The two orders of the spec §8 concrete scenario (10.00 and 25.00). -/
def osX : List Order :=
  [⟨"O1", "555-0001", tA, "SKU1", 1, 1000⟩,
   ⟨"O2", "555-0001", tB, "SKU2", 2, 2500⟩]

def epochT : Timestamp := ⟨1970, 1, 1, 0, 0, 0⟩

/-! ## Claims -/

/-- C2: Join correctness — the joined collection used by the KPIs contains a
pair (order, customer) exactly when the order is in the order set, the
customer is in the customer set, and their `mobile_number`s agree; hence an
order whose mobile number matches no customer appears in no joined pair
(silently excluded), and a customer with zero matching orders contributes no
joined row. -/
theorem c2_join_correctness (cs : List Customer) (os : List Order) (o : Order)
    (c : Customer) :
    (o, c) ∈ joinOrders os cs ↔
      o ∈ os ∧ c ∈ cs ∧ o.mobile_number = c.mobile_number :=
  mem_joinOrders

/-- C5: Revenue conservation — the sum of `total_revenue` over the KPI 3
output rows equals the sum of `total_amount` over all joined order lines, on
both the in-memory path and the SQL path. -/
theorem c5_revenue_conservation (cs : List Customer) (os : List Order) :
    ((get_regional_revenue cs os).map RegionalRow.total_revenue).sum
        = sumBy (fun r => r.1.total_amount) (joinOrders os cs) ∧
      ((sql_regional_revenue cs os).map Prod.snd).sum
        = sumBy (fun r => r.1.total_amount) (joinOrders os cs) := by
  have hmem : ((get_regional_revenue cs os).map RegionalRow.total_revenue).sum
      = sumBy (fun r => r.1.total_amount) (joinOrders os cs) := by
    rw [get_regional_revenue,
      ((List.perm_insertionSort _ _).map RegionalRow.total_revenue).sum_eq,
      mem_regional_rows, List.map_map]
    exact sumBy_partition _ _ _
  refine ⟨hmem, ?_⟩
  rw [sql_regional_eq, List.map_map]
  exact hmem

/-- C6: KPI 4 window semantics — the trailing-window filter (used by both
paths through `recentOrders`) retains exactly the orders whose instant is at
least the single captured reference-now minus 30 days; the boundary is
inclusive: an order exactly 30 days old is retained.  All time comparisons
take the one `now` argument captured per analysis run (`self.current_date`
resp. the statement's `NOW()`). -/
theorem c6_window_semantics (os : List Order) (now : Int) (o : Order) :
    (o ∈ recentOrders os now ↔
        o ∈ os ∧ now - 30 * 86400 ≤ o.order_date_time.toSec) ∧
      (o ∈ os → o.order_date_time.toSec = now - 30 * 86400 →
        o ∈ recentOrders os now) := by
  constructor
  · simp [recentOrders, List.mem_filter]
  · intro ho heq
    simp [recentOrders, List.mem_filter, ho, heq]

/-- Witness for C6 at a concrete input: an order timestamped exactly 30 days
before the reference now is retained by the window filter. -/
theorem c6_window_semantics_witness :
    (⟨"O1", "M1", epochT, "S", 1, 100⟩ : Order) ∈
      recentOrders [⟨"O1", "M1", epochT, "S", 1, 100⟩] 2592000 :=
  (c6_window_semantics [⟨"O1", "M1", epochT, "S", 1, 100⟩] 2592000
    ⟨"O1", "M1", epochT, "S", 1, 100⟩).2 (by decide) (by decide)

/-- C7: Safety of `avg_order_value` — every KPI 3 output row has
`total_orders ≥ 1` (a region appears only via at least one joined line), its
cast to `Rat` is nonzero, and `avg_order_value` is exactly
`total_revenue / total_orders`: the division never divides by zero. -/
theorem c7_avg_order_value_safe (cs : List Customer) (os : List Order)
    (r : RegionalRow) (hr : r ∈ get_regional_revenue cs os) :
    1 ≤ r.total_orders ∧ (r.total_orders : Rat) ≠ 0 ∧
      r.avg_order_value = (r.total_revenue : Rat) / (r.total_orders : Rat) := by
  simp only [get_regional_revenue, List.mem_insertionSort, mem_regional_rows,
    List.mem_map] at hr
  rcases hr with ⟨reg, hreg, rfl⟩
  have h1 : 1 ≤ nuniq (fun r : Order × Customer => r.1.order_id)
      (groupRows (fun r : Order × Customer => r.2.region) (joinOrders os cs) reg) :=
    nuniq_pos (groupRows_ne_nil hreg)
  exact ⟨h1, by exact_mod_cast Nat.one_le_iff_ne_zero.1 h1, rfl⟩

/-- Witness for C7 at the spec §8 scenario: the single "West" row has two
distinct orders, nonzero denominator, and `avg_order_value = 3500 / 2`. -/
theorem c7_avg_order_value_safe_witness :
    1 ≤ (⟨"West", 2, 3500, 1, (3500 : Rat) / (2 : Rat)⟩ : RegionalRow).total_orders ∧
      ((⟨"West", 2, 3500, 1, (3500 : Rat) / (2 : Rat)⟩ : RegionalRow).total_orders : Rat) ≠ 0 ∧
      (⟨"West", 2, 3500, 1, (3500 : Rat) / (2 : Rat)⟩ : RegionalRow).avg_order_value =
        ((⟨"West", 2, 3500, 1, (3500 : Rat) / (2 : Rat)⟩ : RegionalRow).total_revenue : Rat)
          / ((⟨"West", 2, 3500, 1, (3500 : Rat) / (2 : Rat)⟩ : RegionalRow).total_orders : Rat) :=
  c7_avg_order_value_safe csX osX _
    (by rw [show get_regional_revenue csX osX =
          [⟨"West", 2, 3500, 1, (3500 : Rat) / (2 : Rat)⟩] from rfl]
        exact List.mem_singleton_self _)

/-- C10: persistence mutates its input — `load_data_to_db` leaves the
customers DataFrame argument unchanged, overwrites the orders argument's
`order_date_time` column with parsed datetimes (this is what it then writes
to the store), and the overwrite is observable: there are order frames the
call does not leave intact (any frame still holding a raw string). -/
theorem c10_load_data_to_db_mutates (parse : String → Timestamp)
    (cs : List Customer) (os : List OrderRow) :
    (load_data_to_db parse cs os).1.1 = cs ∧
      (load_data_to_db parse cs os).1.2 = to_datetime_col parse os ∧
      (load_data_to_db parse cs os).2 = ⟨cs, to_datetime_col parse os⟩ ∧
      ∃ os₀ : List OrderRow, to_datetime_col parse os₀ ≠ os₀ := by
  refine ⟨rfl, rfl, rfl,
    ⟨[⟨"O1", "M1", DTCell.raw "2024-03-15 10:00:00", "S1", 1, 0⟩], ?_⟩⟩
  simp [to_datetime_col, parseCell]

/-- C9: Normalizer schema validation — customer normalization fails with the
schema error (and the whole run aborts with it, before any KPI computation)
exactly when some required column is absent from the source; when all
required columns are present it returns the cleaned collection. -/
theorem c9_schema_validation (t : RawCustomerTable) (os : List Order) (now : Int) :
    ((¬ ∀ col ∈ requiredCustomerColumns, col ∈ t.columns) →
        load_customer_data t = Except.error "Missing required columns in customer data" ∧
          run_analysis t os now =
            Except.error "Missing required columns in customer data") ∧
      ((∀ col ∈ requiredCustomerColumns, col ∈ t.columns) →
        load_customer_data t = Except.ok (t.rows.map cleanCustomer)) := by
  by_cases hall : ∀ col ∈ requiredCustomerColumns, col ∈ t.columns
  · have hb : requiredCustomerColumns.all (fun col => t.columns.contains col) = true := by
      rw [List.all_eq_true]
      intro col hcol
      simpa using hall col hcol
    exact ⟨fun h => absurd hall h,
      fun _ => by rw [load_customer_data, if_pos hb]⟩
  · have hb : ¬ requiredCustomerColumns.all (fun col => t.columns.contains col) = true := by
      intro hcontra
      rw [List.all_eq_true] at hcontra
      exact hall (fun col hcol => by simpa using hcontra col hcol)
    have hload : load_customer_data t =
        Except.error "Missing required columns in customer data" := by
      rw [load_customer_data, if_neg hb]
    exact ⟨fun _ => ⟨hload, by rw [run_analysis, hload]⟩, fun h => absurd h hall⟩

/-- A customer table missing the required `region` column. -/
def tBad : RawCustomerTable :=
  ⟨["customer_id", "customer_name", "mobile_number"], []⟩

/-- A customer table with all required columns, one row with untrimmed region. -/
def tGood : RawCustomerTable :=
  ⟨["customer_id", "customer_name", "mobile_number", "region"],
   [⟨"C1", "Alice", "555-0001", " West "⟩]⟩

/-- Witness for C9 at concrete inputs: a table missing `region` makes the
load and the whole run fail with the schema error; a complete table loads
the cleaned rows. -/
theorem c9_schema_validation_witness :
    (load_customer_data tBad =
        Except.error "Missing required columns in customer data" ∧
      run_analysis tBad [] 0 =
        Except.error "Missing required columns in customer data") ∧
      load_customer_data tGood = Except.ok (tGood.rows.map cleanCustomer) :=
  ⟨(c9_schema_validation tBad [] 0).1 (by decide),
   (c9_schema_validation tGood [] 0).2 (by decide)⟩

/-- The count of distinct `order_id`s among the joined rows of customer
group `k` — the aggregate both KPI 1 implementations compute
(`['order_id'].nunique()` resp. `COUNT(DISTINCT o.order_id)`). -/
def distinctOrderCount (cs : List Customer) (os : List Order)
    (k : String × String) : Nat :=
  nuniq (fun r => r.1.order_id)
    (groupRows (fun r : Order × Customer => (r.2.customer_id, r.2.customer_name))
      (joinOrders os cs) k)

/-- C4: KPI 1 repeat-customer threshold — a customer group with at most 1
distinct order never appears in the KPI 1 output; a group with 2 or more
distinct orders always appears, reported with exactly its distinct-order
count (line-item multiplicity does not inflate it), on both paths; every
output row exceeds the threshold; and both outputs are ordered by the count
descending. -/
theorem c4_repeat_threshold (cs : List Customer) (os : List Order)
    (k : String × String) :
    (distinctOrderCount cs os k ≤ 1 →
        ∀ n : Nat, (⟨k.1, k.2, n⟩ : RepeatRow) ∉ get_repeat_customers cs os) ∧
      (2 ≤ distinctOrderCount cs os k →
        (⟨k.1, k.2, distinctOrderCount cs os k⟩ : RepeatRow) ∈
            get_repeat_customers cs os ∧
          (k.2, distinctOrderCount cs os k) ∈ sql_repeat_customers cs os) ∧
      (∀ p ∈ get_repeat_customers cs os, 1 < p.order_count) ∧
      (∀ p ∈ sql_repeat_customers cs os, 1 < p.2) ∧
      List.Sorted (fun a b : RepeatRow => b.order_count ≤ a.order_count)
        (get_repeat_customers cs os) ∧
      List.Sorted (fun a b : String × Nat => b.2 ≤ a.2)
        (sql_repeat_customers cs os) := by
  have hchar : ∀ r : RepeatRow, r ∈ get_repeat_customers cs os ↔
      r ∈ mem_repeat_rows cs os ∧ 1 < r.order_count := by
    intro r
    simp [get_repeat_customers, List.mem_insertionSort, List.mem_filter]
  have hsorted : List.Sorted (fun a b : RepeatRow => b.order_count ≤ a.order_count)
      (get_repeat_customers cs os) := by
    rw [get_repeat_customers]
    exact @List.sorted_insertionSort RepeatRow
      (fun a b => b.order_count ≤ a.order_count) _
      ⟨fun a b => Nat.le_total _ _⟩ ⟨fun a b c h₁ h₂ => le_trans h₂ h₁⟩ _
  refine ⟨?_, ?_, ?_, ?_, hsorted, ?_⟩
  · intro hle n hmem
    rcases (hchar _).1 hmem with ⟨hin, hgt⟩
    rw [mem_repeat_rows] at hin
    rcases List.mem_map.1 hin with ⟨k', hk', heq⟩
    have h1 := congrArg RepeatRow.customer_id heq
    have h2 := congrArg RepeatRow.customer_name heq
    have hk'k : k' = k := Prod.ext h1 h2
    have hn := congrArg RepeatRow.order_count heq
    rw [hk'k] at hn
    rw [distinctOrderCount] at hle
    dsimp only at hn hgt
    omega
  · intro h2
    have hne : groupRows
        (fun r : Order × Customer => (r.2.customer_id, r.2.customer_name))
        (joinOrders os cs) k ≠ [] := by
      intro hnil
      rw [distinctOrderCount, hnil] at h2
      simp [nuniq] at h2
    have hkmem : k ∈ groupKeys
        (fun r : Order × Customer => (r.2.customer_id, r.2.customer_name))
        (joinOrders os cs) := by
      rcases List.exists_mem_of_ne_nil _ hne with ⟨x, hx⟩
      rcases mem_groupRows.1 hx with ⟨hxl, hxk⟩
      exact mem_groupKeys.2 ⟨x, hxl, hxk⟩
    have hmemr : (⟨k.1, k.2, distinctOrderCount cs os k⟩ : RepeatRow) ∈
        mem_repeat_rows cs os := by
      rw [mem_repeat_rows]
      exact List.mem_map.2 ⟨k, hkmem, rfl⟩
    have hget : (⟨k.1, k.2, distinctOrderCount cs os k⟩ : RepeatRow) ∈
        get_repeat_customers cs os := (hchar _).2 ⟨hmemr, by dsimp only; omega⟩
    refine ⟨hget, ?_⟩
    rw [sql_repeat_eq]
    exact List.mem_map.2 ⟨_, hget, rfl⟩
  · intro p hp
    exact ((hchar p).1 hp).2
  · intro p hp
    rw [sql_repeat_eq] at hp
    rcases List.mem_map.1 hp with ⟨r, hr, rfl⟩
    exact ((hchar r).1 hr).2
  · rw [sql_repeat_eq]
    exact hsorted.map _ (fun a b h => h)

/-- Witness for C4 at the spec §8 scenario: Alice's group has 2 distinct
orders and appears with count 2 on both paths; an absent group has count 0
and never appears. -/
theorem c4_repeat_threshold_witness :
    (2 ≤ distinctOrderCount csX osX ("C1", "Alice") ∧
        ((⟨"C1", "Alice", 2⟩ : RepeatRow) ∈ get_repeat_customers csX osX ∧
          ("Alice", 2) ∈ sql_repeat_customers csX osX)) ∧
      (distinctOrderCount csX osX ("C9", "Zed") ≤ 1 ∧
        ∀ n : Nat, (⟨"C9", "Zed", n⟩ : RepeatRow) ∉ get_repeat_customers csX osX) :=
  ⟨⟨by decide, (c4_repeat_threshold csX osX ("C1", "Alice")).2.1 (by decide)⟩,
   ⟨by decide, fun n => (c4_repeat_threshold csX osX ("C9", "Zed")).1 (by decide) n⟩⟩

/-- One order in 2024-01 by mobile "1". -/
def osM1 : List Order := [⟨"A", "1", ⟨2024, 1, 5, 0, 0, 0⟩, "S1", 1, 1000⟩]

/-- The same order id split over two line items in 2024-01, by two distinct
mobiles, same total. -/
def osM2 : List Order :=
  [⟨"A", "1", ⟨2024, 1, 5, 0, 0, 0⟩, "S1", 1, 500⟩,
   ⟨"A", "2", ⟨2024, 1, 6, 0, 0, 0⟩, "S2", 1, 500⟩]

/-- Counterexample to C3 as stated: the claim says each output group carries
three aggregates — including the count of distinct `mobile_number` — on both
execution paths.  The SQL query computes no such aggregate: `osM1` and
`osM2` have different distinct-mobile counts for 2024-01 (1 vs 2) yet
identical SQL KPI 2 outputs, so the SQL output carries no distinct-mobile
aggregate. -/
theorem c3_monthly_trends_counterexample :
    sql_monthly_order_trends osM1 = sql_monthly_order_trends osM2 ∧
      (get_monthly_order_trends osM1).map MonthlyRow.unique_customers ≠
        (get_monthly_order_trends osM2).map MonthlyRow.unique_customers := by
  decide

/-- C3 (amended): KPI 2 groups the full, un-joined order set by the
"YYYY-MM" key of `order_date_time` on both paths, with rows ordered by month
ascending on both paths; each in-memory output group carries the three
aggregates (distinct `order_id` count, `total_amount` sum over all line
items, distinct `mobile_number` count), while the SQL path computes only the
first two of them — its query has no distinct-`mobile_number` aggregate. -/
theorem c3_monthly_trends (os : List Order) :
    sql_monthly_order_trends os =
        (get_monthly_order_trends os).map
          (fun r => (r.month, r.total_orders, r.total_revenue)) ∧
      (∀ r ∈ get_monthly_order_trends os,
        r.total_orders = nuniq Order.order_id
            (groupRows (fun o => monthKey o.order_date_time) os r.month) ∧
          r.total_revenue = sumBy Order.total_amount
            (groupRows (fun o => monthKey o.order_date_time) os r.month) ∧
          r.unique_customers = nuniq Order.mobile_number
            (groupRows (fun o => monthKey o.order_date_time) os r.month)) ∧
      (∀ o ∈ os, ∃ r ∈ get_monthly_order_trends os,
        r.month = monthKey o.order_date_time) ∧
      List.Sorted (fun a b : MonthlyRow => a.month ≤ b.month)
        (get_monthly_order_trends os) ∧
      List.Sorted (fun a b : String × Nat × Int => a.1 ≤ b.1)
        (sql_monthly_order_trends os) := by
  have hsorted : List.Sorted (fun a b : MonthlyRow => a.month ≤ b.month)
      (get_monthly_order_trends os) := by
    rw [get_monthly_order_trends]
    exact @List.sorted_insertionSort MonthlyRow
      (fun a b => a.month ≤ b.month) _
      ⟨fun a b => le_total _ _⟩ ⟨fun a b c h₁ h₂ => le_trans h₁ h₂⟩ _
  refine ⟨sql_monthly_eq os, ?_, ?_, hsorted, ?_⟩
  · intro r hr
    simp only [get_monthly_order_trends, List.mem_insertionSort,
      mem_monthly_rows, List.mem_map] at hr
    rcases hr with ⟨m, hm, rfl⟩
    exact ⟨rfl, rfl, rfl⟩
  · intro o ho
    have hk : monthKey o.order_date_time ∈
        groupKeys (fun o => monthKey o.order_date_time) os :=
      mem_groupKeys.2 ⟨o, ho, rfl⟩
    simp only [get_monthly_order_trends, List.mem_insertionSort, mem_monthly_rows,
      List.mem_map]
    exact ⟨_, ⟨_, hk, rfl⟩, rfl⟩
  · rw [sql_monthly_eq]
    exact hsorted.map _ (fun a b h => h)

/-- Witness for C3 (amended) at a concrete input: the spec §8 orders fall in
one month with the three in-memory aggregates (2 orders, 3500, 1 customer)
and the SQL projection agrees on the first two. -/
theorem c3_monthly_trends_witness :
    (⟨"2024-03", 2, 3500, 1⟩ : MonthlyRow) ∈ get_monthly_order_trends osX ∧
      (⟨"2024-03", 2, 3500, 1⟩ : MonthlyRow).total_orders =
        nuniq Order.order_id
          (groupRows (fun o => monthKey o.order_date_time) osX "2024-03") :=
  ⟨by decide,
   ((c3_monthly_trends osX).2.1 (⟨"2024-03", 2, 3500, 1⟩ : MonthlyRow)
     (by decide)).1⟩

/-- An order whose mobile number matches no customer of `csX`. -/
def osY : List Order := [⟨"O9", "999", tA, "SKU1", 1, 1000⟩]

/-- C8: Empty-input totality — on empty customer and order collections all
four KPIs return empty results on both paths (no error: the functions are
total); and whenever the join produces zero rows, KPIs 1, 3 and 4 are empty
on both paths while KPI 2 still computes over the full order set alone: one
row per distinct month, whose revenues sum to the order set's total amount. -/
theorem c8_empty_totality (cs : List Customer) (os : List Order) (now : Int) :
    (get_repeat_customers [] [] = [] ∧ get_monthly_order_trends [] = [] ∧
        get_regional_revenue [] [] = [] ∧
        get_top_customers_last_30_days [] [] now = [] ∧
        sql_repeat_customers [] [] = [] ∧ sql_monthly_order_trends [] = [] ∧
        sql_regional_revenue [] [] = [] ∧ sql_top_customers [] [] now = []) ∧
      (joinOrders os cs = [] →
        get_repeat_customers cs os = [] ∧ get_regional_revenue cs os = [] ∧
          get_top_customers_last_30_days cs os now = [] ∧
          sql_repeat_customers cs os = [] ∧ sql_regional_revenue cs os = [] ∧
          sql_top_customers cs os now = [] ∧
          (get_monthly_order_trends os).length =
            ((os.map (fun o => monthKey o.order_date_time)).dedup).length ∧
          ((get_monthly_order_trends os).map MonthlyRow.total_revenue).sum =
            sumBy Order.total_amount os) := by
  constructor
  · exact ⟨rfl, rfl, rfl, rfl, rfl, rfl, rfl, rfl⟩
  · intro h
    have hrec : joinOrders (recentOrders os now) cs = [] := by
      rw [List.eq_nil_iff_forall_not_mem]
      intro x hx
      rcases x with ⟨o, c⟩
      have hm := mem_joinOrders.1 hx
      have hos : o ∈ os := (List.mem_filter.1 hm.1).1
      have hfull : (o, c) ∈ joinOrders os cs :=
        mem_joinOrders.2 ⟨hos, hm.2.1, hm.2.2⟩
      rw [h] at hfull
      exact absurd hfull (List.not_mem_nil _)
    refine ⟨?_, ?_, ?_, ?_, ?_, ?_, ?_, ?_⟩
    · rw [get_repeat_customers, mem_repeat_rows, h]; rfl
    · rw [get_regional_revenue, mem_regional_rows, h]; rfl
    · rw [get_top_customers_last_30_days, mem_top_rows, hrec]; rfl
    · rw [sql_repeat_customers, sql_repeat_groups, h]; rfl
    · rw [sql_regional_revenue, h]; rfl
    · rw [sql_top_customers, sql_top_groups, hrec]; rfl
    · rw [get_monthly_order_trends, List.length_insertionSort, mem_monthly_rows,
        List.length_map]; rfl
    · rw [get_monthly_order_trends,
        ((List.perm_insertionSort _ _).map MonthlyRow.total_revenue).sum_eq,
        mem_monthly_rows, List.map_map]
      exact sumBy_partition _ _ _

/-- Witness for C8 at a concrete input: one customer and one order whose
mobile numbers do not match — the join is empty, KPIs 1, 3, 4 are empty, and
KPI 2 still has its one month row. -/
theorem c8_empty_totality_witness :
    joinOrders osY csX = [] ∧ get_repeat_customers csX osY = [] ∧
      get_regional_revenue csX osY = [] ∧
      get_top_customers_last_30_days csX osY 0 = [] ∧
      (get_monthly_order_trends osY).length =
        ((osY.map (fun o => monthKey o.order_date_time)).dedup).length := by
  have h := (c8_empty_totality csX osY 0).2 (by decide)
  exact ⟨by decide, h.1, h.2.1, h.2.2.1, h.2.2.2.2.2.2.1⟩

/-- Six customers with distinct ids and mobile numbers. -/
def c1cs : List Customer :=
  [⟨"C1", "A", "M1", "W"⟩, ⟨"C2", "B", "M2", "W"⟩, ⟨"C3", "C", "M3", "W"⟩,
   ⟨"C4", "D", "M4", "W"⟩, ⟨"C5", "E", "M5", "W"⟩, ⟨"C6", "F", "M6", "W"⟩]

/-- Six orders, one per customer, all inside the 30-day window of `now = 0`. -/
def c1os : List Order :=
  [⟨"O1", "M1", epochT, "S", 1, 600⟩, ⟨"O2", "M2", epochT, "S", 1, 500⟩,
   ⟨"O3", "M3", epochT, "S", 1, 400⟩, ⟨"O4", "M4", epochT, "S", 1, 300⟩,
   ⟨"O5", "M5", epochT, "S", 1, 200⟩, ⟨"O6", "M6", epochT, "S", 1, 100⟩]

/-- Counterexample to C1 as stated: on six customers each with one recent
order the SQL path's KPI 4 returns 5 rows (`LIMIT 5`) while the in-memory
path returns 6 (`head(10)`); the two paths' KPI 4 result sets are not
identical — they do not even have the same cardinality. -/
theorem c1_dual_path_counterexample :
    (sql_top_customers c1cs c1os 0).length = 5 ∧
      (get_top_customers_last_30_days c1cs c1os 0).length = 6 := by
  decide

/-- C1 (amended): dual-path consistency up to the columns and the cutoff the
SQL path uses — on the same normalized inputs, with `customer_id` unique
across customers (a §3 invariant): the SQL KPI 1 output is the in-memory
output projected to (customer_name, order_count); the SQL KPI 2 output is
the in-memory output minus its `unique_customers` aggregate; the SQL KPI 3
output is the in-memory output projected to (region, total_revenue); and,
for the same reference now, the SQL KPI 4 output is the first 5 rows of the
in-memory KPI 4 output (which keeps 10) projected to
(customer_name, total_spend) — the paths disagree on the top-N cutoff
(5 vs 10), so the KPI 4 result sets differ whenever more than 5 customer
groups qualify. -/
theorem c1_dual_path (cs : List Customer) (os : List Order) (now : Int)
    (hN : (cs.map Customer.customer_id).Nodup) :
    sql_repeat_customers cs os =
        (get_repeat_customers cs os).map
          (fun r => (r.customer_name, r.order_count)) ∧
      sql_monthly_order_trends os =
        (get_monthly_order_trends os).map
          (fun r => (r.month, r.total_orders, r.total_revenue)) ∧
      sql_regional_revenue cs os =
        (get_regional_revenue cs os).map (fun r => (r.region, r.total_revenue)) ∧
      sql_top_customers cs os now =
        ((get_top_customers_last_30_days cs os now).take 5).map
          (fun r => (r.customer_name, r.total_spend)) :=
  ⟨sql_repeat_eq cs os, sql_monthly_eq os, sql_regional_eq cs os,
   sql_top_eq cs os now hN⟩

/-- Witness for C1 (amended) at the spec §8 scenario (unique customer_ids). -/
theorem c1_dual_path_witness :
    (csX.map Customer.customer_id).Nodup ∧
      (sql_repeat_customers csX osX =
          (get_repeat_customers csX osX).map
            (fun r => (r.customer_name, r.order_count)) ∧
        sql_monthly_order_trends osX =
          (get_monthly_order_trends osX).map
            (fun r => (r.month, r.total_orders, r.total_revenue)) ∧
        sql_regional_revenue csX osX =
          (get_regional_revenue csX osX).map
            (fun r => (r.region, r.total_revenue)) ∧
        sql_top_customers csX osX 0 =
          ((get_top_customers_last_30_days csX osX 0).take 5).map
            (fun r => (r.customer_name, r.total_spend))) :=
  ⟨by decide, c1_dual_path csX osX 0 (by decide)⟩

end AkasaAir
